import Mathlib

/-!
Verification of the wardrobe opening solver in
src/pages/1_Wardrobe_Calculator.py.

Millimetre quantities are modelled as rationals (Python floats with the
small decimal values used here behave as exact rationals for every claim
checked below); integer fields are modelled as integers.  The display
rounding int(round(x)) of Python is modelled by pyRound, which rounds to
the nearest integer and resolves exact halves to the even neighbour, as
Python round does.
-/

namespace Wardrobe

-- Constants from the CONSTANTS block of 1_Wardrobe_Calculator.py.
def BOTTOM_LINER_THICKNESS : ℚ := 36

def TRACKSET_HEIGHT : ℚ := 54

def BASE_SIDE_LINER_THICKNESS : ℚ := 18

def MIN_T_LINER_THICKNESS : ℚ := 50

def MAX_DOOR_HEIGHT : ℚ := 2500

def MAX_DROPDOWN_LIMIT : ℚ := 400

def FIXED_DOOR_HEIGHT : ℚ := 2223

def FIXED_DOOR_WIDTH_OPTIONS : List ℤ := [610, 762, 914]

def HOUSEBUILDER_OPTIONS : List String :=
  ["Non-client specific wardrobe", "Avant", "Homes By Honey", "Bloor",
   "Story", "Strata", "Jones Homes"]

def DOOR_STYLE_OPTIONS : List String := ["Classic", "Shaker", "Heritage", "Contour"]

-- HOUSEBUILDER_RULES entries: dropdown (int) and optional locked total per side.
structure HBRule where
  dropdown : ℤ
  locked_total_per_side : Option ℚ
deriving DecidableEq

-- HOUSEBUILDER_RULES.get(hb, HOUSEBUILDER_RULES["Non-client specific wardrobe"]):
-- dictionary lookup with the non-client rule as the default.
def lookup_hb_rule (hb : String) : HBRule :=
  if hb = "Non-client specific wardrobe" then ⟨0, none⟩
  else if hb = "Avant" then ⟨90, none⟩
  else if hb = "Homes By Honey" then ⟨90, none⟩
  else if hb = "Bloor" then ⟨108, none⟩
  else if hb = "Story" then ⟨50, some 68⟩
  else if hb = "Strata" then ⟨50, some 68⟩
  else if hb = "Jones Homes" then ⟨50, some 68⟩
  else ⟨0, none⟩

-- DOOR_STYLE_OVERLAP.get(door_style, 25): per-meeting overlap with default 25.
def door_style_overlap (s : String) : ℤ :=
  if s = "Classic" then 35
  else if s = "Shaker" then 75
  else if s = "Heritage" then 25
  else if s = "Contour" then 36
  else 25

-- def overlaps_count(num_doors): the meeting-overlap count policy.
def overlaps_count (num_doors : ℤ) : ℤ :=
  let n := max num_doors 1
  if n = 2 then 1
  else if n = 3 ∨ n = 4 then 2
  else if n = 5 then 4
  else max (n - 1) 0

-- def fixed_overlap_total(num_doors): tolerance bucket for the fixed system.
def fixed_overlap_total (num_doors : ℤ) : ℚ :=
  if num_doors = 2 then 75 else 150

-- def normalized_door_system(val): blank defaults to made to measure.
-- The Python None input (also mapped to made to measure) is outside the
-- String domain used here.  The source first strips surrounding
-- whitespace; the door-system vocabulary of the UI ("", "Fixed 2223mm
-- doors", "Made to measure doors") carries none, so stripping is the
-- identity on every reachable input.
def normalized_door_system (val : String) : String :=
  if val = "" then "Made to measure doors" else val

-- def parse_dropdown_select(val): the UI offers "Auto","0","50","90","108".
-- We embed the parsed form: none stands for the Auto selection (is_auto),
-- some d for a numeric selection d.
def parse_dropdown_select (val : Option ℤ) : Bool × ℤ :=
  match val with
  | none => (true, 0)
  | some d => (false, d)

-- def apply_t_liner_rule(total_per_side_needed).
def apply_t_liner_rule (total_per_side_needed : ℚ) : ℚ × ℚ :=
  if total_per_side_needed ≤ BASE_SIDE_LINER_THICKNESS then
    (BASE_SIDE_LINER_THICKNESS, 0)
  else
    let t := max (total_per_side_needed - BASE_SIDE_LINER_THICKNESS) MIN_T_LINER_THICKNESS
    (BASE_SIDE_LINER_THICKNESS + t, t)

-- Python int(round(x)): nearest integer, exact halves to the even neighbour.
def pyRound (x : ℚ) : ℤ :=
  if x - (⌊x⌋ : ℚ) = 1/2 then (if 2 ∣ ⌊x⌋ then ⌊x⌋ else ⌊x⌋ + 1) else round x

theorem pyRound_sub_abs_le (x : ℚ) : |(pyRound x : ℚ) - x| ≤ 1/2 := by
  unfold pyRound
  split_ifs with h h2
  · rw [show ((⌊x⌋ : ℤ) : ℚ) - x = -(1/2) by linarith]
    rw [abs_neg, abs_of_nonneg (by norm_num : (0:ℚ) ≤ 1/2)]
  · rw [show ((⌊x⌋ + 1 : ℤ) : ℚ) - x = 1/2 by push_cast; linarith]
    rw [abs_of_nonneg (by norm_num : (0:ℚ) ≤ 1/2)]
  · rw [abs_sub_comm]
    exact abs_sub_round x

theorem t_liner_eq_low (x : ℚ) (h : x ≤ 18) : apply_t_liner_rule x = (18, 0) := by
  unfold apply_t_liner_rule
  simp only [BASE_SIDE_LINER_THICKNESS]
  rw [if_pos h]

theorem t_liner_eq_high (x : ℚ) (h : ¬ x ≤ 18) :
    apply_t_liner_rule x = (18 + max (x - 18) 50, max (x - 18) 50) := by
  unfold apply_t_liner_rule
  simp only [BASE_SIDE_LINER_THICKNESS, MIN_T_LINER_THICKNESS]
  rw [if_neg h]

-- def fmt_side(total, t): display string for one side.
def fmt_side (total t : ℚ) : String :=
  if t ≤ 0 then toString (pyRound total) ++ "mm (18mm side liner)"
  else toString (pyRound total) ++ "mm (18 + " ++ toString (pyRound t) ++ " T-liner)"

-- def side_desc(left_total, right_total, left_t, right_t, end_panels).
def side_desc (left_total right_total left_t right_t : ℚ) (end_panels : ℤ) : String :=
  if 2 ≤ end_panels then "2x end panels (18mm each side)"
  else if end_panels = 1 then
    if |left_total - 18| < 1/100 ∧ |left_t| < 1/100 then
      "Left: 18mm end panel | Right: " ++ fmt_side right_total right_t
    else if |right_total - 18| < 1/100 ∧ |right_t| < 1/100 then
      "Left: " ++ fmt_side left_total left_t ++ " | Right: 18mm end panel"
    else
      "1x end panel | Left: " ++ fmt_side left_total left_t ++ " | Right: " ++
        fmt_side right_total right_t
  else
    "Left: " ++ fmt_side left_total left_t ++ " | Right: " ++ fmt_side right_total right_t

-- Return value of solve_buildout_for_fixed.
structure BuildOut where
  left_total : ℚ
  right_total : ℚ
  left_t : ℚ
  right_t : ℚ
  status : String
deriving DecidableEq

-- The branch of solve_buildout_for_fixed after the end-panel and
-- locked-total overrides (lines 193 onward of the source).
def solve_buildout_rest (width_mm coverage total_buildout_required : ℚ)
    (end_panels : ℤ) : BuildOut :=
  if total_buildout_required ≤ 36 then
    ⟨18, 18, 0, 0, if coverage ≥ width_mm - 36 then "OK" else "Opening too wide (check inputs)"⟩
  else if end_panels = 1 then
    let right_needed := max (total_buildout_required - 18) 18
    let p := apply_t_liner_rule right_needed
    ⟨18, p.1, 0, p.2,
      if coverage ≥ width_mm - 18 - p.1 then "OK" else "Opening too wide (needs more build-out)"⟩
  else
    let per_side_needed := total_buildout_required / 2
    let p := apply_t_liner_rule per_side_needed
    ⟨p.1, p.1, p.2, p.2,
      if coverage ≥ width_mm - p.1 - p.1 then "OK" else "Opening too wide (needs more build-out)"⟩

-- def solve_buildout_for_fixed(width_mm, door_span_mm, total_overlap_mm,
-- end_panels, locked_total_per_side).
def solve_buildout_for_fixed (width_mm door_span_mm total_overlap_mm : ℚ)
    (end_panels : ℤ) (locked_total_per_side : Option ℚ) : BuildOut :=
  let coverage := door_span_mm - total_overlap_mm
  let total_buildout_required := width_mm - coverage
  if 2 ≤ end_panels then
    ⟨18, 18, 0, 0,
      if coverage ≥ width_mm - 18 - 18 then "OK" else "Opening too wide (needs more build-out)"⟩
  else
    match locked_total_per_side with
    | some L =>
      if end_panels = 0 then
        ⟨L, L, max (L - 18) 0, max (L - 18) 0,
          if coverage ≥ width_mm - L - L then "OK" else "Opening too wide (locked build-out)"⟩
      else solve_buildout_rest width_mm coverage total_buildout_required end_panels
    | none => solve_buildout_rest width_mm coverage total_buildout_required end_panels

-- The Opening input row: Width_mm, Height_mm, Doors, Housebuilder,
-- Door_System, Door_Style, Dropdown_Select (none encodes Auto),
-- Fixed_Door_Width_mm, End_Panels.
structure Opening where
  width : ℚ
  height : ℚ
  doors : ℤ
  housebuilder : String
  door_system : String
  door_style : String
  dropdown_select : Option ℤ
  fixed_door_width : ℤ
  end_panels : ℤ
deriving DecidableEq

-- The pd.Series produced by calculate.  Quantities are kept exact; the
-- source applies int(round(.)) / round(., 1) only when writing the display
-- row, which we model with pyRound where a claim mentions displayed values.
-- door_width none encodes the empty cell of the Bloor guidance row; the
-- Option fields for the overlap block likewise encode the empty cells.
structure CalcResult where
  mode : String
  door_system_resolved : String
  door_height : ℚ
  door_width : Option ℚ
  doors_used : ℤ
  dropdown_height : ℚ
  dropdown_type_status : String
  side_left_total : ℚ
  side_right_total : ℚ
  t_liner_left : Option ℚ
  t_liner_right : Option ℚ
  side_description : String
  net_width : ℚ
  total_overlap : Option ℚ
  door_span : Option ℚ
  coverage : Option ℚ
  width_status : String
  height_status : String
  warnings : List String
  errors : List String
  issue : String

-- Dropdown-type validation (calculate, lines 465-469): status string and
-- the warning it may append.
def dropdown_warning (is_auto : Bool) (user_dd hb_required_dropdown : ℤ) :
    String × List String :=
  if is_auto = false ∧ user_dd ≠ hb_required_dropdown then
    let s := "Housebuilder expects " ++ toString hb_required_dropdown ++
      "mm dropdown (selected " ++ toString user_dd ++ "mm)"
    (s, [s])
  else ("OK", [])

-- The Bloor guidance-only branch of calculate (lines 471-498).
def calculate_bloor (width : ℚ) (doors : ℤ) (dts : String) (warnings0 : List String) :
    CalcResult :=
  let net_width := width - 18 - 18
  { mode := "Bloor guidance"
    door_system_resolved := "Fixed 2223mm doors"
    door_height := FIXED_DOOR_HEIGHT
    door_width := none
    doors_used := doors
    dropdown_height := 108
    dropdown_type_status := dts
    side_left_total := 18
    side_right_total := 18
    t_liner_left := none
    t_liner_right := none
    side_description := "Refer to floor plan (build-out per drawing)"
    net_width := net_width
    total_overlap := none
    door_span := none
    coverage := none
    width_status := ""
    height_status := ""
    warnings := warnings0
    errors := []
    issue := if warnings0 ≠ [] then "🔴 Check" else "ℹ️ Refer to floor plan" }

-- The fixed 2223 + fixed width solver branch of calculate (lines 500-568).
def calculate_fixed (width height : ℚ) (doors end_panels : ℤ) (locked : Option ℚ)
    (fixed_w : ℤ) (door_system dts : String) (warnings0 : List String) : CalcResult :=
  let total_overlap := fixed_overlap_total doors
  let door_h := FIXED_DOOR_HEIGHT
  let dwp : ℚ × List String :=
    if fixed_w ∈ FIXED_DOOR_WIDTH_OPTIONS then ((fixed_w : ℚ), [])
    else (762, ["Fixed door width not recognised – defaulted to 762mm."])
  let door_w := dwp.1
  let door_span := (doors : ℚ) * door_w
  let b := solve_buildout_for_fixed width door_span total_overlap end_panels locked
  let net_width := width - b.left_total - b.right_total
  let coverage := door_span - total_overlap
  let diff := coverage - net_width
  let wsp : String × List String :=
    if diff < 0 then
      ("Opening too wide",
        ["Opening too wide by " ++ toString (pyRound (-diff)) ++
          "mm – increase build-out or change doors."])
    else ("OK", [])
  let dropdown_raw := height - (BOTTOM_LINER_THICKNESS + TRACKSET_HEIGHT) - door_h
  let hsp : String × List String :=
    if height - (BOTTOM_LINER_THICKNESS + TRACKSET_HEIGHT) < door_h then
      ("Opening too small (height)",
        ["Opening too small (height) for fixed door + bottom liner + trackset."])
    else ("OK", [])
  let ddp : ℚ × List String :=
    if MAX_DROPDOWN_LIMIT < dropdown_raw then
      (MAX_DROPDOWN_LIMIT,
        ["Dropdown would exceed 400mm (cap applied) – check opening height vs fixed door."])
    else (max dropdown_raw 0, [])
  let errors := wsp.2 ++ hsp.2
  let warnings := warnings0 ++ dwp.2 ++ ddp.2
  { mode := "Fixed (Avant/HBH only)"
    door_system_resolved := door_system
    door_height := door_h
    door_width := some door_w
    doors_used := doors
    dropdown_height := ddp.1
    dropdown_type_status := dts
    side_left_total := b.left_total
    side_right_total := b.right_total
    t_liner_left := some b.left_t
    t_liner_right := some b.right_t
    side_description := side_desc b.left_total b.right_total b.left_t b.right_t end_panels
    net_width := net_width
    total_overlap := some total_overlap
    door_span := some door_span
    coverage := some coverage
    width_status := wsp.1
    height_status := hsp.1
    warnings := warnings
    errors := errors
    issue := if errors ≠ [] ∨ warnings ≠ [] then "🔴 Check" else "✅ OK" }

-- The default made to measure branch of calculate (lines 570-640).
def calculate_mtm (width height : ℚ) (doors end_panels hb_required_dropdown : ℤ)
    (locked : Option ℚ) (door_style : String) (is_auto : Bool) (user_dd : ℤ)
    (dts : String) (warnings0 : List String) : CalcResult :=
  let overlap_per_meeting := door_style_overlap door_style
  let total_overlap : ℚ := ((overlaps_count doors * overlap_per_meeting : ℤ) : ℚ)
  let dropdown_h : ℚ :=
    ((max 0 (min (if is_auto then hb_required_dropdown else user_dd) 400) : ℤ) : ℚ)
  let sides0 : ℚ × ℚ × ℚ × ℚ :=
    match locked with
    | some L =>
      if end_panels = 0 then (L, L, max (L - 18) 0, max (L - 18) 0) else (18, 18, 0, 0)
    | none => (18, 18, 0, 0)
  let sides : ℚ × ℚ × ℚ × ℚ :=
    if 2 ≤ end_panels then (18, 18, 0, 0)
    else if end_panels = 1 then (18, 18, 0, 0)
    else sides0
  let left_total := sides.1
  let right_total := sides.2.1
  let left_t := sides.2.2.1
  let right_t := sides.2.2.2
  let net_width := width - left_total - right_total
  let errs1 : List String :=
    if net_width ≤ 0 then ["Opening too small (width) after side deductions."] else []
  let raw_door_h := height - (BOTTOM_LINER_THICKNESS + TRACKSET_HEIGHT) - dropdown_h
  let door_h := max (min raw_door_h MAX_DOOR_HEIGHT) 0
  let errs2 : List String :=
    if door_h ≤ 0 then ["Opening too small (height) after bottom/track/dropdown deductions."]
    else []
  let door_w : ℚ := if doors ≠ 0 then (net_width + total_overlap) / (doors : ℚ) else 0
  let door_span := (doors : ℚ) * door_w
  let coverage := door_span - total_overlap
  let warns1 : List String :=
    if 0 < net_width then
      if 2 < |coverage - net_width| then
        ["Coverage mismatch vs net width by " ++ toString (pyRound (coverage - net_width)) ++
          "mm (rounding/inputs)."]
      else []
    else []
  let errors := errs1 ++ errs2
  let warnings := warnings0 ++ warns1
  { mode := "Made to measure"
    door_system_resolved := "Made to measure doors"
    door_height := door_h
    door_width := some door_w
    doors_used := doors
    dropdown_height := dropdown_h
    dropdown_type_status := dts
    side_left_total := left_total
    side_right_total := right_total
    t_liner_left := some left_t
    t_liner_right := some right_t
    side_description := side_desc left_total right_total left_t right_t end_panels
    net_width := net_width
    total_overlap := some total_overlap
    door_span := some door_span
    coverage := some coverage
    width_status := if 0 < net_width then "OK" else "Opening too small (width)"
    height_status := if 0 < door_h then "OK" else "Opening too small (height)"
    warnings := warnings
    errors := errors
    issue := if errors ≠ [] ∨ warnings ≠ [] then "🔴 Check" else "✅ OK" }

-- def calculate(row): dispatch between the Bloor guidance branch, the
-- fixed-width solver (Avant / Homes By Honey with the fixed door system)
-- and the default made to measure branch, exactly as in the source.
def calculate (row : Opening) : CalcResult :=
  if row.housebuilder = "Bloor" then
    calculate_bloor row.width row.doors
      (dropdown_warning (parse_dropdown_select row.dropdown_select).1
        (parse_dropdown_select row.dropdown_select).2
        (lookup_hb_rule row.housebuilder).dropdown).1
      (dropdown_warning (parse_dropdown_select row.dropdown_select).1
        (parse_dropdown_select row.dropdown_select).2
        (lookup_hb_rule row.housebuilder).dropdown).2
  else if (row.housebuilder = "Avant" ∨ row.housebuilder = "Homes By Honey") ∧
      normalized_door_system row.door_system = "Fixed 2223mm doors" then
    calculate_fixed row.width row.height row.doors row.end_panels
      (lookup_hb_rule row.housebuilder).locked_total_per_side row.fixed_door_width
      (normalized_door_system row.door_system)
      (dropdown_warning (parse_dropdown_select row.dropdown_select).1
        (parse_dropdown_select row.dropdown_select).2
        (lookup_hb_rule row.housebuilder).dropdown).1
      (dropdown_warning (parse_dropdown_select row.dropdown_select).1
        (parse_dropdown_select row.dropdown_select).2
        (lookup_hb_rule row.housebuilder).dropdown).2
  else
    calculate_mtm row.width row.height row.doors row.end_panels
      (lookup_hb_rule row.housebuilder).dropdown
      (lookup_hb_rule row.housebuilder).locked_total_per_side row.door_style
      (parse_dropdown_select row.dropdown_select).1
      (parse_dropdown_select row.dropdown_select).2
      (dropdown_warning (parse_dropdown_select row.dropdown_select).1
        (parse_dropdown_select row.dropdown_select).2
        (lookup_hb_rule row.housebuilder).dropdown).1
      (dropdown_warning (parse_dropdown_select row.dropdown_select).1
        (parse_dropdown_select row.dropdown_select).2
        (lookup_hb_rule row.housebuilder).dropdown).2

theorem calculate_eq_bloor (row : Opening) (h : row.housebuilder = "Bloor") :
    calculate row = calculate_bloor row.width row.doors
      (dropdown_warning (parse_dropdown_select row.dropdown_select).1
        (parse_dropdown_select row.dropdown_select).2
        (lookup_hb_rule row.housebuilder).dropdown).1
      (dropdown_warning (parse_dropdown_select row.dropdown_select).1
        (parse_dropdown_select row.dropdown_select).2
        (lookup_hb_rule row.housebuilder).dropdown).2 := by
  unfold calculate
  rw [if_pos h]

theorem calculate_eq_fixed (row : Opening) (h1 : ¬ row.housebuilder = "Bloor")
    (h2 : (row.housebuilder = "Avant" ∨ row.housebuilder = "Homes By Honey") ∧
      normalized_door_system row.door_system = "Fixed 2223mm doors") :
    calculate row = calculate_fixed row.width row.height row.doors row.end_panels
      (lookup_hb_rule row.housebuilder).locked_total_per_side row.fixed_door_width
      (normalized_door_system row.door_system)
      (dropdown_warning (parse_dropdown_select row.dropdown_select).1
        (parse_dropdown_select row.dropdown_select).2
        (lookup_hb_rule row.housebuilder).dropdown).1
      (dropdown_warning (parse_dropdown_select row.dropdown_select).1
        (parse_dropdown_select row.dropdown_select).2
        (lookup_hb_rule row.housebuilder).dropdown).2 := by
  unfold calculate
  rw [if_neg h1, if_pos h2]

theorem calculate_eq_mtm (row : Opening) (h1 : ¬ row.housebuilder = "Bloor")
    (h2 : ¬ ((row.housebuilder = "Avant" ∨ row.housebuilder = "Homes By Honey") ∧
      normalized_door_system row.door_system = "Fixed 2223mm doors")) :
    calculate row = calculate_mtm row.width row.height row.doors row.end_panels
      (lookup_hb_rule row.housebuilder).dropdown
      (lookup_hb_rule row.housebuilder).locked_total_per_side row.door_style
      (parse_dropdown_select row.dropdown_select).1
      (parse_dropdown_select row.dropdown_select).2
      (dropdown_warning (parse_dropdown_select row.dropdown_select).1
        (parse_dropdown_select row.dropdown_select).2
        (lookup_hb_rule row.housebuilder).dropdown).1
      (dropdown_warning (parse_dropdown_select row.dropdown_select).1
        (parse_dropdown_select row.dropdown_select).2
        (lookup_hb_rule row.housebuilder).dropdown).2 := by
  unfold calculate
  rw [if_neg h1, if_neg h2]

/-- Claim C3: overlaps_count maps door counts 2,3,4,5,6,7 to 1,2,2,4,5,6
meeting overlaps respectively, and every door count above 5 maps to
door_count minus 1. -/
theorem claim_C3_overlaps_count :
    overlaps_count 2 = 1 ∧ overlaps_count 3 = 2 ∧ overlaps_count 4 = 2 ∧
    overlaps_count 5 = 4 ∧ overlaps_count 6 = 5 ∧ overlaps_count 7 = 6 ∧
    ∀ n : ℤ, 5 < n → overlaps_count n = n - 1 := by
  refine ⟨by decide, by decide, by decide, by decide, by decide, by decide, ?_⟩
  intro n hn
  simp only [overlaps_count]
  rw [show max n 1 = n by omega]
  rw [if_neg (by omega : ¬ n = 2), if_neg (by omega : ¬ (n = 3 ∨ n = 4)),
    if_neg (by omega : ¬ n = 5)]
  omega

/-- Witness for claim C3 at door count 9. -/
theorem claim_C3_overlaps_count_witness : overlaps_count 9 = 9 - 1 :=
  claim_C3_overlaps_count.2.2.2.2.2.2 9 (by norm_num)

/-- Claim C5: apply_t_liner_rule returns (18, 0) for inputs at most 18, and
(18 + t, t) with t = max(x - 18, 50) for inputs above 18; in particular
18.001 yields (68, 50) and 80 yields (80, 62). -/
theorem claim_C5_apply_t_liner_rule :
    (∀ x : ℚ, x ≤ 18 → apply_t_liner_rule x = (18, 0)) ∧
    (∀ x : ℚ, 18 < x →
      apply_t_liner_rule x = (18 + max (x - 18) 50, max (x - 18) 50)) ∧
    apply_t_liner_rule (18001/1000) = (68, 50) ∧
    apply_t_liner_rule 80 = (80, 62) := by
  refine ⟨fun x hx => t_liner_eq_low x hx,
    fun x hx => t_liner_eq_high x (not_le.mpr hx), ?_, ?_⟩
  · rw [t_liner_eq_high (18001/1000) (by norm_num)]
    rw [max_eq_right (by norm_num : (18001/1000 : ℚ) - 18 ≤ 50)]
    norm_num
  · rw [t_liner_eq_high 80 (by norm_num)]
    rw [max_eq_left (by norm_num : (50:ℚ) ≤ 80 - 18)]
    norm_num

/-- Witness for claim C5 at inputs 10 and 100. -/
theorem claim_C5_apply_t_liner_rule_witness :
    apply_t_liner_rule 10 = (18, 0) ∧
    apply_t_liner_rule 100 = (18 + max (100 - 18) 50, max (100 - 18) 50) :=
  ⟨claim_C5_apply_t_liner_rule.1 10 (by norm_num),
   claim_C5_apply_t_liner_rule.2.1 100 (by norm_num)⟩

/-- Claim C10: the side total returned by apply_t_liner_rule is at least
max(x, 18) and is always either exactly 18 or at least 68, so only the two
fabricable liner sizes ever appear. -/
theorem claim_C10_t_liner_bounds (x : ℚ) :
    max x 18 ≤ (apply_t_liner_rule x).1 ∧
    ((apply_t_liner_rule x).1 = 18 ∨ 68 ≤ (apply_t_liner_rule x).1) := by
  rcases le_or_lt x 18 with h | h
  · rw [t_liner_eq_low x h]
    exact ⟨max_le h le_rfl, Or.inl rfl⟩
  · rw [t_liner_eq_high x (not_le.mpr h)]
    dsimp only
    have h1 := le_max_left (x - 18) (50:ℚ)
    have h2 := le_max_right (x - 18) (50:ℚ)
    exact ⟨max_le (by linarith) (by linarith), Or.inr (by linarith)⟩

section ProjectionLemmas

variable (width height : ℚ) (doors end_panels hbd : ℤ) (locked : Option ℚ)
variable (ds dss dts : String) (ia : Bool) (ud fw : ℤ) (w0 : List String)

theorem mtm_doors_used :
    (calculate_mtm width height doors end_panels hbd locked ds ia ud dts w0).doors_used
      = doors := rfl

theorem mtm_dropdown_height :
    (calculate_mtm width height doors end_panels hbd locked ds ia ud dts w0).dropdown_height
      = ((max 0 (min (if ia then hbd else ud) 400) : ℤ) : ℚ) := rfl

theorem mtm_door_height :
    (calculate_mtm width height doors end_panels hbd locked ds ia ud dts w0).door_height
      = max (min (height - (BOTTOM_LINER_THICKNESS + TRACKSET_HEIGHT) -
          (calculate_mtm width height doors end_panels hbd locked ds ia ud dts w0).dropdown_height)
          MAX_DOOR_HEIGHT) 0 := rfl

theorem mtm_height_status :
    (calculate_mtm width height doors end_panels hbd locked ds ia ud dts w0).height_status
      = if 0 < (calculate_mtm width height doors end_panels hbd locked ds ia ud dts w0).door_height
        then "OK" else "Opening too small (height)" := rfl

theorem mtm_width_status :
    (calculate_mtm width height doors end_panels hbd locked ds ia ud dts w0).width_status
      = if 0 < (calculate_mtm width height doors end_panels hbd locked ds ia ud dts w0).net_width
        then "OK" else "Opening too small (width)" := rfl

theorem mtm_total_overlap :
    (calculate_mtm width height doors end_panels hbd locked ds ia ud dts w0).total_overlap
      = some ((overlaps_count doors * door_style_overlap ds : ℤ) : ℚ) := rfl

theorem mtm_door_width :
    (calculate_mtm width height doors end_panels hbd locked ds ia ud dts w0).door_width
      = some (if doors ≠ 0 then
          ((calculate_mtm width height doors end_panels hbd locked ds ia ud dts w0).net_width +
            ((overlaps_count doors * door_style_overlap ds : ℤ) : ℚ)) / (doors : ℚ)
        else 0) := rfl

theorem mtm_errors :
    (calculate_mtm width height doors end_panels hbd locked ds ia ud dts w0).errors
      = (if (calculate_mtm width height doors end_panels hbd locked ds ia ud dts w0).net_width ≤ 0
          then ["Opening too small (width) after side deductions."] else []) ++
        (if (calculate_mtm width height doors end_panels hbd locked ds ia ud dts w0).door_height ≤ 0
          then ["Opening too small (height) after bottom/track/dropdown deductions."] else []) :=
  rfl

theorem mtm_issue :
    (calculate_mtm width height doors end_panels hbd locked ds ia ud dts w0).issue
      = if (calculate_mtm width height doors end_panels hbd locked ds ia ud dts w0).errors ≠ [] ∨
           (calculate_mtm width height doors end_panels hbd locked ds ia ud dts w0).warnings ≠ []
        then "🔴 Check" else "✅ OK" := rfl

theorem mtm_sides :
    ((calculate_mtm width height doors end_panels hbd locked ds ia ud dts w0).side_left_total,
     (calculate_mtm width height doors end_panels hbd locked ds ia ud dts w0).side_right_total,
     (calculate_mtm width height doors end_panels hbd locked ds ia ud dts w0).t_liner_left,
     (calculate_mtm width height doors end_panels hbd locked ds ia ud dts w0).t_liner_right)
      = (if 2 ≤ end_panels then ((18:ℚ), (18:ℚ), some (0:ℚ), some (0:ℚ))
         else if end_panels = 1 then (18, 18, some 0, some 0)
         else match locked with
           | some L =>
             if end_panels = 0 then (L, L, some (max (L - 18) 0), some (max (L - 18) 0))
             else (18, 18, some 0, some 0)
           | none => (18, 18, some 0, some 0)) := by
  simp only [calculate_mtm]
  rcases locked with _ | L
  · split_ifs <;> rfl
  · split_ifs <;> rfl

theorem mtm_net_width :
    (calculate_mtm width height doors end_panels hbd locked ds ia ud dts w0).net_width
      = width -
        (calculate_mtm width height doors end_panels hbd locked ds ia ud dts w0).side_left_total -
        (calculate_mtm width height doors end_panels hbd locked ds ia ud dts w0).side_right_total :=
  rfl

theorem fixed_width_status :
    (calculate_fixed width height doors end_panels locked fw dss dts w0).width_status
      = if (calculate_fixed width height doors end_panels locked fw dss dts w0).coverage.getD 0 -
          (calculate_fixed width height doors end_panels locked fw dss dts w0).net_width < 0
        then "Opening too wide" else "OK" := by
  simp only [calculate_fixed, Option.getD_some]
  split_ifs <;> rfl

theorem fixed_net_width :
    (calculate_fixed width height doors end_panels locked fw dss dts w0).net_width
      = width -
        (calculate_fixed width height doors end_panels locked fw dss dts w0).side_left_total -
        (calculate_fixed width height doors end_panels locked fw dss dts w0).side_right_total :=
  rfl

theorem fixed_total_overlap :
    (calculate_fixed width height doors end_panels locked fw dss dts w0).total_overlap
      = some (fixed_overlap_total doors) := rfl

theorem fixed_coverage :
    (calculate_fixed width height doors end_panels locked fw dss dts w0).coverage
      = some ((calculate_fixed width height doors end_panels locked fw dss dts w0).door_span.getD 0
          - fixed_overlap_total doors) := by
  simp only [calculate_fixed, Option.getD_some]

theorem fixed_door_width_val :
    (calculate_fixed width height doors end_panels locked fw dss dts w0).door_width
      = some (if fw ∈ FIXED_DOOR_WIDTH_OPTIONS then (fw : ℚ) else 762) := by
  simp only [calculate_fixed]
  split_ifs <;> rfl

theorem fixed_door_span :
    (calculate_fixed width height doors end_panels locked fw dss dts w0).door_span
      = some ((doors : ℚ) *
          (calculate_fixed width height doors end_panels locked fw dss dts w0).door_width.getD 0) := by
  simp only [calculate_fixed, Option.getD_some]

theorem fixed_errors :
    (calculate_fixed width height doors end_panels locked fw dss dts w0).errors
      = (if (calculate_fixed width height doors end_panels locked fw dss dts w0).coverage.getD 0 -
           (calculate_fixed width height doors end_panels locked fw dss dts w0).net_width < 0
         then ["Opening too wide by " ++
            toString (pyRound (-((calculate_fixed width height doors end_panels locked fw dss dts w0).coverage.getD 0 -
              (calculate_fixed width height doors end_panels locked fw dss dts w0).net_width))) ++
            "mm – increase build-out or change doors."]
         else []) ++
        (if height - (BOTTOM_LINER_THICKNESS + TRACKSET_HEIGHT) < FIXED_DOOR_HEIGHT
         then ["Opening too small (height) for fixed door + bottom liner + trackset."]
         else []) := by
  simp only [calculate_fixed, Option.getD_some]
  split_ifs <;> rfl

theorem fixed_height_status :
    (calculate_fixed width height doors end_panels locked fw dss dts w0).height_status
      = if height - (BOTTOM_LINER_THICKNESS + TRACKSET_HEIGHT) < FIXED_DOOR_HEIGHT
        then "Opening too small (height)" else "OK" := by
  simp only [calculate_fixed, Option.getD_some]
  split_ifs <;> rfl

theorem fixed_warnings :
    (calculate_fixed width height doors end_panels locked fw dss dts w0).warnings
      = w0 ++
        (if fw ∈ FIXED_DOOR_WIDTH_OPTIONS then []
         else ["Fixed door width not recognised – defaulted to 762mm."]) ++
        (if MAX_DROPDOWN_LIMIT <
            height - (BOTTOM_LINER_THICKNESS + TRACKSET_HEIGHT) - FIXED_DOOR_HEIGHT
         then ["Dropdown would exceed 400mm (cap applied) – check opening height vs fixed door."]
         else []) := by
  simp only [calculate_fixed]
  split_ifs <;> rfl

theorem fixed_issue :
    (calculate_fixed width height doors end_panels locked fw dss dts w0).issue
      = if (calculate_fixed width height doors end_panels locked fw dss dts w0).errors ≠ [] ∨
           (calculate_fixed width height doors end_panels locked fw dss dts w0).warnings ≠ []
        then "🔴 Check" else "✅ OK" := rfl

end ProjectionLemmas

/-- Claim C6: for every opening whose housebuilder is the guidance-only
Bloor, regardless of width and height, the result has no numeric door
width, carries the explicit refer-to-floor-plan indicator, and echoes only
the fixed door-height and dropdown constants. -/
theorem claim_C6_bloor_guidance (row : Opening) (h : row.housebuilder = "Bloor") :
    (calculate row).door_width = none ∧
    (calculate row).side_description = "Refer to floor plan (build-out per drawing)" ∧
    (calculate row).door_height = FIXED_DOOR_HEIGHT ∧
    (calculate row).dropdown_height = 108 ∧
    (calculate row).mode = "Bloor guidance" ∧
    (calculate row).t_liner_left = none ∧
    (calculate row).t_liner_right = none := by
  rw [calculate_eq_bloor row h]
  exact ⟨rfl, rfl, rfl, rfl, rfl, rfl, rfl⟩

def rowC6 : Opening :=
  ⟨-5, 99999, 3, "Bloor", "Made to measure doors", "Classic", none, 762, 0⟩

/-- Witness for claim C6 at an absurd concrete opening. -/
theorem claim_C6_bloor_guidance_witness :
    (calculate rowC6).door_width = none ∧
    (calculate rowC6).side_description = "Refer to floor plan (build-out per drawing)" ∧
    (calculate rowC6).door_height = FIXED_DOOR_HEIGHT ∧
    (calculate rowC6).dropdown_height = 108 ∧
    (calculate rowC6).mode = "Bloor guidance" ∧
    (calculate rowC6).t_liner_left = none ∧
    (calculate rowC6).t_liner_right = none :=
  claim_C6_bloor_guidance rowC6 rfl

/-- Witness for claim C10 at input 80. -/
theorem claim_C10_t_liner_bounds_witness :
    max (80:ℚ) 18 ≤ (apply_t_liner_rule 80).1 ∧
    ((apply_t_liner_rule 80).1 = 18 ∨ 68 ≤ (apply_t_liner_rule 80).1) :=
  claim_C10_t_liner_bounds 80

def rowC1 : Opening :=
  ⟨3000, 2400, 2, "Avant", "Fixed 2223mm doors", "Classic", none, 610, 2⟩

/-- Counterexample to claim C1: at a 3000mm opening with two end panels in
fixed-size-door mode, net_width + total_overlap (3039) is well above
door_span (1220), yet the width status is Opening too wide, not OK — the
source accepts the width exactly when net_width + total_overlap is at most
door_span, the reverse of the claimed inequality. -/
theorem claim_C1_counterexample :
    (calculate rowC1).door_span.getD 0 ≤
      (calculate rowC1).net_width + (calculate rowC1).total_overlap.getD 0 ∧
    (calculate rowC1).width_status = "Opening too wide" ∧
    (calculate rowC1).width_status ≠ "OK" := by
  rw [calculate_eq_fixed rowC1 (by decide) (by decide)]
  refine ⟨?_, ?_, ?_⟩ <;>
    try simp [calculate_fixed, rowC1, lookup_hb_rule, parse_dropdown_select, dropdown_warning,
      solve_buildout_for_fixed, fixed_overlap_total, FIXED_DOOR_WIDTH_OPTIONS,
      FIXED_DOOR_HEIGHT, BOTTOM_LINER_THICKNESS, TRACKSET_HEIGHT, MAX_DROPDOWN_LIMIT,
      normalized_door_system]
  all_goals try norm_num
  all_goals try decide

def rowC2 : Opening := ⟨2000, 2300, 2, "Avant", "", "Classic", some 50, 762, 0⟩

/-- Counterexample to claim C2: a made-to-measure opening whose width and
height statuses are both OK still gets the overall issue flag Check,
because the dropdown-type warning (50mm selected against the 90mm the
housebuilder expects) is enough to trip the flag. -/
theorem claim_C2_counterexample :
    (calculate rowC2).width_status = "OK" ∧
    (calculate rowC2).height_status = "OK" ∧
    (calculate rowC2).issue = "🔴 Check" := by
  rw [calculate_eq_mtm rowC2 (by decide) (by decide)]
  refine ⟨?_, ?_, ?_⟩ <;>
    try simp [calculate_mtm, rowC2, lookup_hb_rule, parse_dropdown_select, dropdown_warning,
      overlaps_count, door_style_overlap, BOTTOM_LINER_THICKNESS, TRACKSET_HEIGHT,
      MAX_DOOR_HEIGHT, min_def, max_def]
  all_goals norm_num

def rowC4 : Opening :=
  ⟨1968, 2300, 4, "Non-client specific wardrobe", "", "Classic", none, 762, 0⟩

/-- Counterexample to claim C4: a 1968mm made-to-measure opening with four
doors has net_width 1932 and total_overlap 70, so the exact door width is
500.5mm; after integer rounding the displayed width times the door count
is 2000, which is 2mm away from net_width + total_overlap = 2002 — beyond
the claimed 1mm rounding drift. -/
theorem claim_C4_counterexample :
    0 < (calculate rowC4).net_width ∧ 0 < (calculate rowC4).doors_used ∧
    1 < |((pyRound ((calculate rowC4).door_width.getD 0) : ℤ) : ℚ) *
      ((calculate rowC4).doors_used : ℚ) -
      ((calculate rowC4).net_width + (calculate rowC4).total_overlap.getD 0)| := by
  have hfloor : ⌊(1001:ℚ)/2⌋ = (500:ℤ) := by
    rw [Int.floor_eq_iff]
    norm_num
  have hpy : pyRound ((1001:ℚ)/2) = 500 := by
    unfold pyRound
    rw [hfloor]
    norm_num
  rw [calculate_eq_mtm rowC4 (by decide) (by decide)]
  simp [calculate_mtm, rowC4, lookup_hb_rule, parse_dropdown_select, dropdown_warning,
    overlaps_count, door_style_overlap, BOTTOM_LINER_THICKNESS, TRACKSET_HEIGHT,
    MAX_DOOR_HEIGHT, min_def, max_def]
  norm_num [hpy, lt_abs]

def rowC7 : Opening := ⟨2000, 2300, 2, "Story", "", "Classic", none, 762, 1⟩

/-- Counterexample to claim C7: housebuilder Story carries a locked total
build-out of 68mm per side, yet with exactly one end panel the solver
leaves both sides at 18mm with no T-liner — the non-panel side does not
take the locked total, because the lock is only consulted when the end
panel count is zero. -/
theorem claim_C7_counterexample :
    (lookup_hb_rule rowC7.housebuilder).locked_total_per_side = some 68 ∧
    rowC7.end_panels = 1 ∧
    (calculate rowC7).side_left_total = 18 ∧
    (calculate rowC7).side_right_total = 18 ∧
    (calculate rowC7).t_liner_left = some 0 ∧
    (calculate rowC7).t_liner_right = some 0 := by
  rw [calculate_eq_mtm rowC7 (by decide) (by decide)]
  exact ⟨rfl, rfl, rfl, rfl, rfl, rfl⟩

def rowC8 : Opening :=
  ⟨2000, 2300, 2, "Non-client specific wardrobe", "", "Mystery", none, 762, 0⟩

/-- Counterexample to claim C8: an unrecognized door style falls back to a
25mm overlap per meeting, not the claimed 35mm — with two doors (one
meeting) the total overlap is 25, not 35. -/
theorem claim_C8_counterexample :
    rowC8.door_style ∉ DOOR_STYLE_OPTIONS ∧
    (calculate rowC8).total_overlap = some 25 ∧
    (calculate rowC8).total_overlap ≠ some ((overlaps_count rowC8.doors * 35 : ℤ) : ℚ) := by
  rw [calculate_eq_mtm rowC8 (by decide) (by decide)]
  refine ⟨by decide, ?_, ?_⟩ <;>
    try rw [mtm_total_overlap]
  all_goals simp [rowC8, overlaps_count, door_style_overlap]

def rowC9 : Opening :=
  ⟨2000, 3000, 2, "Non-client specific wardrobe", "", "Classic", none, 762, 0⟩

/-- Counterexample to claim C9: a 3000mm-high made-to-measure opening has
an unclamped door height of 2910mm, above the 2500mm maximum, yet the
height status stays OK — the excess is clamped silently and never
reported. -/
theorem claim_C9_counterexample :
    MAX_DOOR_HEIGHT <
      rowC9.height - (BOTTOM_LINER_THICKNESS + TRACKSET_HEIGHT) -
        (calculate rowC9).dropdown_height ∧
    (calculate rowC9).door_height = MAX_DOOR_HEIGHT ∧
    (calculate rowC9).height_status = "OK" := by
  rw [calculate_eq_mtm rowC9 (by decide) (by decide)]
  refine ⟨?_, ?_, ?_⟩ <;>
    try simp [calculate_mtm, rowC9, lookup_hb_rule, parse_dropdown_select, dropdown_warning,
      overlaps_count, door_style_overlap, BOTTOM_LINER_THICKNESS, TRACKSET_HEIGHT,
      MAX_DOOR_HEIGHT, min_def, max_def]
  all_goals norm_num

theorem fixed_width_ok_iff (width height : ℚ) (doors end_panels : ℤ) (locked : Option ℚ)
    (fw : ℤ) (dss dts : String) (w0 : List String) :
    ((calculate_fixed width height doors end_panels locked fw dss dts w0).width_status = "OK" ↔
      (calculate_fixed width height doors end_panels locked fw dss dts w0).net_width +
        (calculate_fixed width height doors end_panels locked fw dss dts w0).total_overlap.getD 0 ≤
        (calculate_fixed width height doors end_panels locked fw dss dts w0).door_span.getD 0) ∧
    ((calculate_fixed width height doors end_panels locked fw dss dts w0).width_status ≠ "OK" →
      (calculate_fixed width height doors end_panels locked fw dss dts w0).width_status =
        "Opening too wide" ∧
      ("Opening too wide by " ++
        toString (pyRound
          ((calculate_fixed width height doors end_panels locked fw dss dts w0).net_width +
           (calculate_fixed width height doors end_panels locked fw dss dts w0).total_overlap.getD 0 -
           (calculate_fixed width height doors end_panels locked fw dss dts w0).door_span.getD 0)) ++
        "mm – increase build-out or change doors.") ∈
        (calculate_fixed width height doors end_panels locked fw dss dts w0).errors) := by
  have hC : (calculate_fixed width height doors end_panels locked fw dss dts w0).coverage.getD 0
      = (calculate_fixed width height doors end_panels locked fw dss dts w0).door_span.getD 0 -
        (calculate_fixed width height doors end_panels locked fw dss dts w0).total_overlap.getD 0 := by
    rw [fixed_coverage, fixed_total_overlap, Option.getD_some, Option.getD_some]
  rw [fixed_width_status, fixed_errors, hC]
  set N := (calculate_fixed width height doors end_panels locked fw dss dts w0).net_width
  set S := (calculate_fixed width height doors end_panels locked fw dss dts w0).door_span.getD 0
  set O := (calculate_fixed width height doors end_panels locked fw dss dts w0).total_overlap.getD 0
  by_cases h : S - O - N < 0
  · rw [if_pos h, if_pos h]
    constructor
    · exact iff_of_false (by decide) (by push_neg; linarith)
    · intro _
      refine ⟨rfl, ?_⟩
      rw [show N + O - S = -(S - O - N) by ring]
      exact List.mem_append_left _ (List.mem_cons_self _ _)
  · rw [if_neg h, if_neg h]
    constructor
    · exact iff_of_true rfl (by linarith)
    · intro hne
      exact absurd rfl hne

/-- Claim C1 (amended): in fixed-size-door mode the width status is OK iff
net_width + total_overlap is at most door_span (the doors, net of their
overlaps, span at least the usable opening); otherwise the status is
Opening too wide and the error list names the excess
net_width + total_overlap - door_span in mm.  The direction of the
inequality is the reverse of the one claimed. -/
theorem claim_C1_amended (row : Opening)
    (hhb : row.housebuilder = "Avant" ∨ row.housebuilder = "Homes By Honey")
    (hds : normalized_door_system row.door_system = "Fixed 2223mm doors") :
    ((calculate row).width_status = "OK" ↔
      (calculate row).net_width + (calculate row).total_overlap.getD 0 ≤
        (calculate row).door_span.getD 0) ∧
    ((calculate row).width_status ≠ "OK" →
      (calculate row).width_status = "Opening too wide" ∧
      ("Opening too wide by " ++
        toString (pyRound ((calculate row).net_width + (calculate row).total_overlap.getD 0 -
          (calculate row).door_span.getD 0)) ++
        "mm – increase build-out or change doors.") ∈ (calculate row).errors) := by
  have hnb : ¬ row.housebuilder = "Bloor" := by
    rcases hhb with h | h <;> rw [h] <;> decide
  rw [calculate_eq_fixed row hnb ⟨hhb, hds⟩]
  exact fixed_width_ok_iff _ _ _ _ _ _ _ _ _

def rowC1w : Opening :=
  ⟨2000, 2400, 2, "Avant", "Fixed 2223mm doors", "Classic", none, 762, 0⟩

/-- Witness for claim C1 (amended) at a concrete fixed-mode opening. -/
theorem claim_C1_amended_witness :
    ((calculate rowC1w).width_status = "OK" ↔
      (calculate rowC1w).net_width + (calculate rowC1w).total_overlap.getD 0 ≤
        (calculate rowC1w).door_span.getD 0) ∧
    ((calculate rowC1w).width_status ≠ "OK" →
      (calculate rowC1w).width_status = "Opening too wide" ∧
      ("Opening too wide by " ++
        toString (pyRound ((calculate rowC1w).net_width + (calculate rowC1w).total_overlap.getD 0 -
          (calculate rowC1w).door_span.getD 0)) ++
        "mm – increase build-out or change doors.") ∈ (calculate rowC1w).errors) :=
  claim_C1_amended rowC1w (Or.inl rfl) (by decide)

theorem mtm_height_claim (width height : ℚ) (doors end_panels hbd : ℤ) (locked : Option ℚ)
    (ds : String) (ia : Bool) (ud : ℤ) (dts : String) (w0 : List String) :
    ((calculate_mtm width height doors end_panels hbd locked ds ia ud dts w0).door_height
      = max (min (height - (BOTTOM_LINER_THICKNESS + TRACKSET_HEIGHT) -
          (calculate_mtm width height doors end_panels hbd locked ds ia ud dts w0).dropdown_height)
          MAX_DOOR_HEIGHT) 0) ∧
    ((calculate_mtm width height doors end_panels hbd locked ds ia ud dts w0).height_status =
        "Opening too small (height)" ↔
      (calculate_mtm width height doors end_panels hbd locked ds ia ud dts w0).door_height ≤ 0) ∧
    (height - (BOTTOM_LINER_THICKNESS + TRACKSET_HEIGHT) -
        (calculate_mtm width height doors end_panels hbd locked ds ia ud dts w0).dropdown_height < 0 →
      (calculate_mtm width height doors end_panels hbd locked ds ia ud dts w0).height_status =
        "Opening too small (height)") ∧
    (MAX_DOOR_HEIGHT < height - (BOTTOM_LINER_THICKNESS + TRACKSET_HEIGHT) -
        (calculate_mtm width height doors end_panels hbd locked ds ia ud dts w0).dropdown_height →
      (calculate_mtm width height doors end_panels hbd locked ds ia ud dts w0).door_height =
        MAX_DOOR_HEIGHT ∧
      (calculate_mtm width height doors end_panels hbd locked ds ia ud dts w0).height_status =
        "OK") := by
  rw [mtm_height_status, mtm_door_height]
  set raw := height - (BOTTOM_LINER_THICKNESS + TRACKSET_HEIGHT) -
    (calculate_mtm width height doors end_panels hbd locked ds ia ud dts w0).dropdown_height
  refine ⟨rfl, ?_, ?_, ?_⟩
  · split_ifs with h
    · exact iff_of_false (by decide) (by linarith)
    · exact iff_of_true rfl (not_lt.mp h)
  · intro hraw
    rw [if_neg (not_lt.mpr (max_le (le_trans (min_le_left _ _) (le_of_lt hraw)) le_rfl))]
  · intro hgt
    rw [min_eq_right (le_of_lt hgt), max_eq_left (by norm_num [MAX_DOOR_HEIGHT])]
    rw [if_pos (by norm_num [MAX_DOOR_HEIGHT])]
    exact ⟨rfl, rfl⟩

/-- Claim C9 (amended): in the made-to-measure path door_height is
height - 36 - 54 - dropdown clamped to the interval from 0 to 2500; the
height status is the opening-too-small string exactly when the clamped
door height is at most 0 (in particular whenever the raw value is
negative); when the raw value exceeds 2500 the door height is silently
clamped to 2500 and the height status stays OK — the excess is not
reported, contrary to the original claim. -/
theorem claim_C9_amended (row : Opening) (h1 : row.housebuilder ≠ "Bloor")
    (h2 : ¬ ((row.housebuilder = "Avant" ∨ row.housebuilder = "Homes By Honey") ∧
      normalized_door_system row.door_system = "Fixed 2223mm doors")) :
    ((calculate row).door_height
      = max (min (row.height - (BOTTOM_LINER_THICKNESS + TRACKSET_HEIGHT) -
          (calculate row).dropdown_height) MAX_DOOR_HEIGHT) 0) ∧
    ((calculate row).height_status = "Opening too small (height)" ↔
      (calculate row).door_height ≤ 0) ∧
    (row.height - (BOTTOM_LINER_THICKNESS + TRACKSET_HEIGHT) -
        (calculate row).dropdown_height < 0 →
      (calculate row).height_status = "Opening too small (height)") ∧
    (MAX_DOOR_HEIGHT < row.height - (BOTTOM_LINER_THICKNESS + TRACKSET_HEIGHT) -
        (calculate row).dropdown_height →
      (calculate row).door_height = MAX_DOOR_HEIGHT ∧
      (calculate row).height_status = "OK") := by
  rw [calculate_eq_mtm row h1 h2]
  exact mtm_height_claim _ _ _ _ _ _ _ _ _ _ _

def rowC9w : Opening :=
  ⟨2000, 3000, 2, "Non-client specific wardrobe", "", "Classic", none, 762, 0⟩

/-- Witness for claim C9 (amended) at a concrete tall opening. -/
theorem claim_C9_amended_witness :
    ((calculate rowC9w).door_height
      = max (min (rowC9w.height - (BOTTOM_LINER_THICKNESS + TRACKSET_HEIGHT) -
          (calculate rowC9w).dropdown_height) MAX_DOOR_HEIGHT) 0) ∧
    ((calculate rowC9w).height_status = "Opening too small (height)" ↔
      (calculate rowC9w).door_height ≤ 0) ∧
    (rowC9w.height - (BOTTOM_LINER_THICKNESS + TRACKSET_HEIGHT) -
        (calculate rowC9w).dropdown_height < 0 →
      (calculate rowC9w).height_status = "Opening too small (height)") ∧
    (MAX_DOOR_HEIGHT < rowC9w.height - (BOTTOM_LINER_THICKNESS + TRACKSET_HEIGHT) -
        (calculate rowC9w).dropdown_height →
      (calculate rowC9w).door_height = MAX_DOOR_HEIGHT ∧
      (calculate rowC9w).height_status = "OK") :=
  claim_C9_amended rowC9w (by decide) (by decide)

theorem fixed_issue_claim (width height : ℚ) (doors end_panels : ℤ) (locked : Option ℚ)
    (fw : ℤ) (dss dts : String) (w0 : List String) :
    ((calculate_fixed width height doors end_panels locked fw dss dts w0).issue = "✅ OK" ∨
      (calculate_fixed width height doors end_panels locked fw dss dts w0).issue = "🔴 Check") ∧
    ((calculate_fixed width height doors end_panels locked fw dss dts w0).issue = "✅ OK" ↔
      (calculate_fixed width height doors end_panels locked fw dss dts w0).errors = [] ∧
      (calculate_fixed width height doors end_panels locked fw dss dts w0).warnings = []) ∧
    ((calculate_fixed width height doors end_panels locked fw dss dts w0).issue = "✅ OK" →
      (calculate_fixed width height doors end_panels locked fw dss dts w0).width_status = "OK" ∧
      (calculate_fixed width height doors end_panels locked fw dss dts w0).height_status = "OK") := by
  rw [fixed_issue]
  by_cases h : (calculate_fixed width height doors end_panels locked fw dss dts w0).errors ≠ [] ∨
      (calculate_fixed width height doors end_panels locked fw dss dts w0).warnings ≠ []
  · rw [if_pos h]
    refine ⟨Or.inr rfl, iff_of_false (by decide) ?_, fun habs => absurd habs (by decide)⟩
    rintro ⟨he, hw⟩
    rcases h with h | h
    · exact h he
    · exact h hw
  · rw [if_neg h]
    push_neg at h
    obtain ⟨he, hw⟩ := h
    refine ⟨Or.inl rfl, iff_of_true rfl ⟨he, hw⟩, fun _ => ?_⟩
    rw [fixed_errors] at he
    rcases List.append_eq_nil.mp he with ⟨he1, he2⟩
    constructor
    · rw [fixed_width_status]
      by_cases hc : (calculate_fixed width height doors end_panels locked fw dss dts w0).coverage.getD 0 -
          (calculate_fixed width height doors end_panels locked fw dss dts w0).net_width < 0
      · rw [if_pos hc] at he1
        simp at he1
      · rw [if_neg hc]
    · rw [fixed_height_status]
      by_cases hc : height - (BOTTOM_LINER_THICKNESS + TRACKSET_HEIGHT) < FIXED_DOOR_HEIGHT
      · rw [if_pos hc] at he2
        simp at he2
      · rw [if_neg hc]

theorem mtm_issue_claim (width height : ℚ) (doors end_panels hbd : ℤ) (locked : Option ℚ)
    (ds : String) (ia : Bool) (ud : ℤ) (dts : String) (w0 : List String) :
    ((calculate_mtm width height doors end_panels hbd locked ds ia ud dts w0).issue = "✅ OK" ∨
      (calculate_mtm width height doors end_panels hbd locked ds ia ud dts w0).issue = "🔴 Check") ∧
    ((calculate_mtm width height doors end_panels hbd locked ds ia ud dts w0).issue = "✅ OK" ↔
      (calculate_mtm width height doors end_panels hbd locked ds ia ud dts w0).errors = [] ∧
      (calculate_mtm width height doors end_panels hbd locked ds ia ud dts w0).warnings = []) ∧
    ((calculate_mtm width height doors end_panels hbd locked ds ia ud dts w0).issue = "✅ OK" →
      (calculate_mtm width height doors end_panels hbd locked ds ia ud dts w0).width_status = "OK" ∧
      (calculate_mtm width height doors end_panels hbd locked ds ia ud dts w0).height_status = "OK") := by
  rw [mtm_issue]
  by_cases h : (calculate_mtm width height doors end_panels hbd locked ds ia ud dts w0).errors ≠ [] ∨
      (calculate_mtm width height doors end_panels hbd locked ds ia ud dts w0).warnings ≠ []
  · rw [if_pos h]
    refine ⟨Or.inr rfl, iff_of_false (by decide) ?_, fun habs => absurd habs (by decide)⟩
    rintro ⟨he, hw⟩
    rcases h with h | h
    · exact h he
    · exact h hw
  · rw [if_neg h]
    push_neg at h
    obtain ⟨he, hw⟩ := h
    refine ⟨Or.inl rfl, iff_of_true rfl ⟨he, hw⟩, fun _ => ?_⟩
    rw [mtm_errors] at he
    rcases List.append_eq_nil.mp he with ⟨he1, he2⟩
    constructor
    · rw [mtm_width_status]
      by_cases hc : (calculate_mtm width height doors end_panels hbd locked ds ia ud dts w0).net_width ≤ 0
      · rw [if_pos hc] at he1
        simp at he1
      · rw [if_pos (not_le.mp hc)]
    · rw [mtm_height_status]
      by_cases hc : (calculate_mtm width height doors end_panels hbd locked ds ia ud dts w0).door_height ≤ 0
      · rw [if_pos hc] at he2
        simp at he2
      · rw [if_pos (not_le.mp hc)]

/-- Claim C2 (amended): outside the Bloor guidance branch, the overall
issue flag is OK exactly when both the errors and warnings lists are
empty, and Check otherwise; an OK flag does imply both width and height
statuses are OK, but the converse fails — warnings (such as a
dropdown-type mismatch) set the flag to Check even with both statuses
OK. -/
theorem claim_C2_amended (row : Opening) (h : row.housebuilder ≠ "Bloor") :
    ((calculate row).issue = "✅ OK" ∨ (calculate row).issue = "🔴 Check") ∧
    ((calculate row).issue = "✅ OK" ↔
      (calculate row).errors = [] ∧ (calculate row).warnings = []) ∧
    ((calculate row).issue = "✅ OK" →
      (calculate row).width_status = "OK" ∧ (calculate row).height_status = "OK") := by
  by_cases hfix : (row.housebuilder = "Avant" ∨ row.housebuilder = "Homes By Honey") ∧
      normalized_door_system row.door_system = "Fixed 2223mm doors"
  · rw [calculate_eq_fixed row h hfix]
    exact fixed_issue_claim _ _ _ _ _ _ _ _ _
  · rw [calculate_eq_mtm row h hfix]
    exact mtm_issue_claim _ _ _ _ _ _ _ _ _ _ _

def rowC2w : Opening :=
  ⟨2000, 2300, 2, "Non-client specific wardrobe", "", "Classic", none, 762, 0⟩

/-- Witness for claim C2 (amended) at a concrete made-to-measure opening. -/
theorem claim_C2_amended_witness :
    ((calculate rowC2w).issue = "✅ OK" ∨ (calculate rowC2w).issue = "🔴 Check") ∧
    ((calculate rowC2w).issue = "✅ OK" ↔
      (calculate rowC2w).errors = [] ∧ (calculate rowC2w).warnings = []) ∧
    ((calculate rowC2w).issue = "✅ OK" →
      (calculate rowC2w).width_status = "OK" ∧ (calculate rowC2w).height_status = "OK") :=
  claim_C2_amended rowC2w (by decide)

theorem mtm_door_width_claim (width height : ℚ) (doors end_panels hbd : ℤ)
    (locked : Option ℚ) (ds : String) (ia : Bool) (ud : ℤ) (dts : String)
    (w0 : List String) (hd : 0 < doors) :
    ((calculate_mtm width height doors end_panels hbd locked ds ia ud dts w0).door_width.getD 0 *
      ((calculate_mtm width height doors end_panels hbd locked ds ia ud dts w0).doors_used : ℚ)
      = (calculate_mtm width height doors end_panels hbd locked ds ia ud dts w0).net_width +
        (calculate_mtm width height doors end_panels hbd locked ds ia ud dts w0).total_overlap.getD 0) ∧
    |((pyRound ((calculate_mtm width height doors end_panels hbd locked ds ia ud dts w0).door_width.getD 0) : ℤ) : ℚ) *
      ((calculate_mtm width height doors end_panels hbd locked ds ia ud dts w0).doors_used : ℚ) -
      ((calculate_mtm width height doors end_panels hbd locked ds ia ud dts w0).net_width +
        (calculate_mtm width height doors end_panels hbd locked ds ia ud dts w0).total_overlap.getD 0)|
      ≤ ((calculate_mtm width height doors end_panels hbd locked ds ia ud dts w0).doors_used : ℚ) / 2 := by
  rw [mtm_door_width, mtm_doors_used, mtm_total_overlap, Option.getD_some, Option.getD_some]
  rw [if_pos (by omega : doors ≠ 0)]
  set N := (calculate_mtm width height doors end_panels hbd locked ds ia ud dts w0).net_width
  set O := ((overlaps_count doors * door_style_overlap ds : ℤ) : ℚ)
  have hdq : (0:ℚ) < (doors:ℚ) := by exact_mod_cast hd
  have hdz : ((doors:ℚ)) ≠ 0 := ne_of_gt hdq
  have hval : (N + O) / (doors:ℚ) * (doors:ℚ) = N + O := div_mul_cancel₀ _ hdz
  refine ⟨hval, ?_⟩
  have hq := pyRound_sub_abs_le ((N + O) / (doors:ℚ))
  have hprod : ((pyRound ((N + O)/(doors:ℚ)) : ℤ) : ℚ) * (doors:ℚ) - (N + O)
      = (((pyRound ((N + O)/(doors:ℚ)) : ℤ) : ℚ) - (N + O)/(doors:ℚ)) * (doors:ℚ) := by
    rw [sub_mul, hval]
  rw [hprod, abs_mul, abs_of_pos hdq]
  exact le_trans (mul_le_mul_of_nonneg_right hq hdq.le) (le_of_eq (by ring))

/-- Claim C4 (amended): in the made-to-measure path the exact door width
times the door count equals net_width + total_overlap with no error at
all; after integer rounding of the displayed door width the product can
drift from that sum by up to door_count / 2 millimetres (2mm already at
four doors), so the claimed 1mm bound holds only up to three doors. -/
theorem claim_C4_amended (row : Opening) (h1 : row.housebuilder ≠ "Bloor")
    (h2 : ¬ ((row.housebuilder = "Avant" ∨ row.housebuilder = "Homes By Honey") ∧
      normalized_door_system row.door_system = "Fixed 2223mm doors"))
    (hd : 0 < row.doors) (_hn : 0 < (calculate row).net_width) :
    ((calculate row).door_width.getD 0 * ((calculate row).doors_used : ℚ)
      = (calculate row).net_width + (calculate row).total_overlap.getD 0) ∧
    |((pyRound ((calculate row).door_width.getD 0) : ℤ) : ℚ) *
      ((calculate row).doors_used : ℚ) -
      ((calculate row).net_width + (calculate row).total_overlap.getD 0)|
      ≤ ((calculate row).doors_used : ℚ) / 2 := by
  rw [calculate_eq_mtm row h1 h2]
  exact mtm_door_width_claim _ _ _ _ _ _ _ _ _ _ _ hd

/-- Witness for claim C4 (amended) at the four-door opening of the
counterexample, whose net width is positive. -/
theorem claim_C4_amended_witness :
    0 < (calculate rowC4).net_width ∧
    (((calculate rowC4).door_width.getD 0 * ((calculate rowC4).doors_used : ℚ)
      = (calculate rowC4).net_width + (calculate rowC4).total_overlap.getD 0) ∧
    |((pyRound ((calculate rowC4).door_width.getD 0) : ℤ) : ℚ) *
      ((calculate rowC4).doors_used : ℚ) -
      ((calculate rowC4).net_width + (calculate rowC4).total_overlap.getD 0)|
      ≤ ((calculate rowC4).doors_used : ℚ) / 2) :=
  have hn : 0 < (calculate rowC4).net_width := by
    rw [calculate_eq_mtm rowC4 (by decide) (by decide), mtm_net_width]
    simp [calculate_mtm, rowC4, lookup_hb_rule]
    norm_num
  ⟨hn, claim_C4_amended rowC4 (by decide) (by decide) (by decide) hn⟩

theorem rest_one_panel (width coverage required : ℚ) (hreq : ¬ required ≤ 36) :
    (solve_buildout_rest width coverage required 1).left_total = 18 ∧
    (solve_buildout_rest width coverage required 1).left_t = 0 ∧
    ((solve_buildout_rest width coverage required 1).right_total,
      (solve_buildout_rest width coverage required 1).right_t)
      = apply_t_liner_rule (max (required - 18) 18) := by
  unfold solve_buildout_rest
  rw [if_neg hreq, if_pos rfl]
  exact ⟨rfl, rfl, rfl⟩

theorem rest_small_required (width coverage required : ℚ) (end_panels : ℤ)
    (hreq : required ≤ 36) :
    (solve_buildout_rest width coverage required end_panels).left_total = 18 ∧
    (solve_buildout_rest width coverage required end_panels).right_total = 18 ∧
    (solve_buildout_rest width coverage required end_panels).left_t = 0 ∧
    (solve_buildout_rest width coverage required end_panels).right_t = 0 := by
  unfold solve_buildout_rest
  rw [if_pos hreq]
  exact ⟨rfl, rfl, rfl, rfl⟩

theorem buildout_one_panel_eq (width door_span total_overlap : ℚ) (locked : Option ℚ) :
    solve_buildout_for_fixed width door_span total_overlap 1 locked
      = solve_buildout_rest width (door_span - total_overlap)
        (width - (door_span - total_overlap)) 1 := by
  simp only [solve_buildout_for_fixed]
  rw [if_neg (by decide : ¬ (2:ℤ) ≤ 1)]
  cases locked with
  | none => rfl
  | some L => rfl

/-- Claim C7 (amended): with exactly one end panel the housebuilder lock is
ignored (locked totals apply only with zero end panels): in fixed-size-door
mode, whenever the required total build-out exceeds 36mm, the left side is
fixed at 18mm with no T-liner and the right side takes the solved
remainder through the T-liner rule; when the required total build-out is
at most 36mm both sides are 18mm with no T-liner; in the made-to-measure
path both sides are simply 18mm with no T-liner, locked total or not. -/
theorem claim_C7_amended :
    (∀ (width door_span total_overlap : ℚ) (locked : Option ℚ),
      36 < width - (door_span - total_overlap) →
      (solve_buildout_for_fixed width door_span total_overlap 1 locked).left_total = 18 ∧
      (solve_buildout_for_fixed width door_span total_overlap 1 locked).left_t = 0 ∧
      ((solve_buildout_for_fixed width door_span total_overlap 1 locked).right_total,
        (solve_buildout_for_fixed width door_span total_overlap 1 locked).right_t)
        = apply_t_liner_rule (max (width - (door_span - total_overlap) - 18) 18)) ∧
    (∀ (width door_span total_overlap : ℚ) (locked : Option ℚ),
      width - (door_span - total_overlap) ≤ 36 →
      (solve_buildout_for_fixed width door_span total_overlap 1 locked).left_total = 18 ∧
      (solve_buildout_for_fixed width door_span total_overlap 1 locked).right_total = 18 ∧
      (solve_buildout_for_fixed width door_span total_overlap 1 locked).left_t = 0 ∧
      (solve_buildout_for_fixed width door_span total_overlap 1 locked).right_t = 0) ∧
    (∀ row : Opening, row.housebuilder ≠ "Bloor" →
      ¬ ((row.housebuilder = "Avant" ∨ row.housebuilder = "Homes By Honey") ∧
        normalized_door_system row.door_system = "Fixed 2223mm doors") →
      row.end_panels = 1 →
      (calculate row).side_left_total = 18 ∧ (calculate row).side_right_total = 18 ∧
      (calculate row).t_liner_left = some 0 ∧ (calculate row).t_liner_right = some 0) := by
  refine ⟨?_, ?_, ?_⟩
  · intro width door_span total_overlap locked hreq
    rw [buildout_one_panel_eq]
    exact rest_one_panel _ _ _ (not_le.mpr hreq)
  · intro width door_span total_overlap locked hreq
    rw [buildout_one_panel_eq]
    exact rest_small_required _ _ _ _ hreq
  · intro row hb hfix hep
    rw [calculate_eq_mtm row hb hfix, hep]
    exact ⟨rfl, rfl, rfl, rfl⟩

/-- Witness for claim C7 (amended): one end panel and a span of 1220mm with
75mm overlap, once at a 2000mm opening (required build-out 855mm, above
36mm) and once at an 1180mm opening (required build-out 35mm, at most
36mm), both with the 68mm lock present, plus the Story row of the C7
counterexample on the made-to-measure side. -/
theorem claim_C7_amended_witness :
    (36 < (2000:ℚ) - (1220 - 75) ∧
      ((solve_buildout_for_fixed 2000 1220 75 1 (some 68)).left_total = 18 ∧
       (solve_buildout_for_fixed 2000 1220 75 1 (some 68)).left_t = 0 ∧
       ((solve_buildout_for_fixed 2000 1220 75 1 (some 68)).right_total,
         (solve_buildout_for_fixed 2000 1220 75 1 (some 68)).right_t)
         = apply_t_liner_rule (max ((2000:ℚ) - (1220 - 75) - 18) 18))) ∧
    ((1180:ℚ) - (1220 - 75) ≤ 36 ∧
      ((solve_buildout_for_fixed 1180 1220 75 1 (some 68)).left_total = 18 ∧
       (solve_buildout_for_fixed 1180 1220 75 1 (some 68)).right_total = 18 ∧
       (solve_buildout_for_fixed 1180 1220 75 1 (some 68)).left_t = 0 ∧
       (solve_buildout_for_fixed 1180 1220 75 1 (some 68)).right_t = 0)) ∧
    ((calculate rowC7).side_left_total = 18 ∧ (calculate rowC7).side_right_total = 18 ∧
      (calculate rowC7).t_liner_left = some 0 ∧ (calculate rowC7).t_liner_right = some 0) :=
  ⟨⟨by norm_num, claim_C7_amended.1 2000 1220 75 (some 68) (by norm_num)⟩,
   ⟨by norm_num, claim_C7_amended.2.1 1180 1220 75 (some 68) (by norm_num)⟩,
   claim_C7_amended.2.2 rowC7 (by decide) (by decide) rfl⟩

/-- Claim C8 (amended): an unrecognized housebuilder silently falls back to
the default non-client rule and an unrecognized door style to a 25mm (not
35mm) overlap per meeting, neither touching the issue flag; an
unrecognized fixed door width falls back to 762mm but records a warning,
which forces the issue flag to Check.  The embedded solver is a total
function, so no input raises. -/
theorem claim_C8_amended :
    (∀ hb : String, hb ∉ HOUSEBUILDER_OPTIONS →
      lookup_hb_rule hb = ⟨0, none⟩) ∧
    (∀ st : String, st ∉ DOOR_STYLE_OPTIONS → door_style_overlap st = 25) ∧
    (∀ row : Opening,
      (row.housebuilder = "Avant" ∨ row.housebuilder = "Homes By Honey") →
      normalized_door_system row.door_system = "Fixed 2223mm doors" →
      row.fixed_door_width ∉ FIXED_DOOR_WIDTH_OPTIONS →
      (calculate row).door_width = some 762 ∧
      "Fixed door width not recognised – defaulted to 762mm." ∈ (calculate row).warnings ∧
      (calculate row).issue = "🔴 Check") := by
  refine ⟨?_, ?_, ?_⟩
  · intro hb h
    simp only [HOUSEBUILDER_OPTIONS, List.mem_cons, List.not_mem_nil, or_false, not_or] at h
    obtain ⟨h1, h2, h3, h4, h5, h6, h7⟩ := h
    unfold lookup_hb_rule
    rw [if_neg h1, if_neg h2, if_neg h3, if_neg h4, if_neg h5, if_neg h6, if_neg h7]
  · intro st h
    simp only [DOOR_STYLE_OPTIONS, List.mem_cons, List.not_mem_nil, or_false, not_or] at h
    obtain ⟨h1, h2, h3, h4⟩ := h
    unfold door_style_overlap
    rw [if_neg h1, if_neg h2, if_neg h3, if_neg h4]
  · intro row hhb hds hfw
    have hnb : ¬ row.housebuilder = "Bloor" := by
      rcases hhb with h | h <;> rw [h] <;> decide
    rw [calculate_eq_fixed row hnb ⟨hhb, hds⟩]
    refine ⟨?_, ?_, ?_⟩
    · rw [fixed_door_width_val, if_neg hfw]
    · rw [fixed_warnings, if_neg hfw]
      simp
    · rw [fixed_issue, if_pos (Or.inr ?_)]
      rw [fixed_warnings, if_neg hfw]
      simp

def rowC8w : Opening :=
  ⟨2000, 2400, 2, "Avant", "Fixed 2223mm doors", "Classic", none, 600, 0⟩

/-- Witness for claim C8 (amended): an unknown housebuilder, an unknown
door style, and a fixed-mode row whose 600mm door width is not an option. -/
theorem claim_C8_amended_witness :
    lookup_hb_rule "Persimmon" = ⟨0, none⟩ ∧
    door_style_overlap "Milano" = 25 ∧
    ((calculate rowC8w).door_width = some 762 ∧
      "Fixed door width not recognised – defaulted to 762mm." ∈ (calculate rowC8w).warnings ∧
      (calculate rowC8w).issue = "🔴 Check") :=
  ⟨claim_C8_amended.1 "Persimmon" (by decide),
   claim_C8_amended.2.1 "Milano" (by decide),
   claim_C8_amended.2.2 rowC8w (Or.inl rfl) (by decide) (by decide)⟩

end Wardrobe
